import Mathlib

/-!
Verification of the PodAI autonomous container manager (src/podai.py)
against its natural-language specification.

The development is a shallow embedding of the Python source:
Python values that flow through this program (everything that json.loads
can produce) are modelled by `PyVal`, raised exceptions by `PyErr` inside
`Except`, and the external collaborators (the docker client and the
Ollama oracle) by explicit parameters: a `Backend` record of outcome
functions and a `CycleEnv` carrying the oracle interaction of one cycle.
-/

namespace PodAI

/-- Model of a Python value as produced by `json.loads` and handled by the
program: strings, integers, booleans, `None`, lists and string-keyed dicts
(dicts are association lists, first binding wins). -/
inductive PyVal where
  | str (s : String)
  | int (n : Int)
  | bool (b : Bool)
  | none
  | list (xs : List PyVal)
  | dict (fields : List (String × PyVal))

/-- Model of a raised Python exception, as far as this program
distinguishes them. `typeError` and `keyError` arise inside the core;
`dockerError` stands for any exception raised by a docker-client call and
`oracleError` for a failure of `llm.ainvoke`. -/
inductive PyErr where
  | typeError (msg : String)
  | keyError (key : String)
  | dockerError (msg : String)
  | oracleError (msg : String)
deriving DecidableEq

/-- A `**parameters` mapping: string keys to Python values. -/
abbrev Params := List (String × PyVal)

/-- Python subscript `v[k]` with a string key: dict lookup raising
`KeyError` when the key is absent, `TypeError` on non-dict values
(matching CPython messages for list, str and other objects). -/
def getItem (v : PyVal) (k : String) : Except PyErr PyVal :=
  match v with
  | .dict d =>
    match d.find? (fun p => p.fst == k) with
    | some p => .ok p.snd
    | Option.none => .error (.keyError k)
  | .list _ => .error (.typeError "list indices must be integers or slices, not str")
  | .str _ => .error (.typeError "string indices must be integers")
  | _ => .error (.typeError "object is not subscriptable")

/-- Python `f(**v)`: the argument after `**` must be a mapping, anything
else raises `TypeError` before the call happens. -/
def asParams (v : PyVal) : Except PyErr Params :=
  match v with
  | .dict d => .ok d
  | _ => .error (.typeError "argument after ** must be a mapping")

mutual

/-- Python `repr` of a value (used by `str` on containers); string escaping
is not modelled, which is irrelevant to every theorem below. -/
def pyRepr : PyVal → String
  | .str s => "'" ++ s ++ "'"
  | .int n => toString n
  | .bool b => if b then "True" else "False"
  | .none => "None"
  | .list xs => "[" ++ String.intercalate ", " (pyReprList xs) ++ "]"
  | .dict d => "\x7b" ++ String.intercalate ", " (pyReprFields d) ++ "\x7d"

/-- `repr` of the elements of a list value, in order. -/
def pyReprList : List PyVal → List String
  | [] => []
  | x :: xs => pyRepr x :: pyReprList xs

/-- `repr` of the bindings of a dict value, in order. -/
def pyReprFields : List (String × PyVal) → List String
  | [] => []
  | (k, v) :: xs => ("'" ++ k ++ "': " ++ pyRepr v) :: pyReprFields xs

end

/-- Python `str(v)`, as interpolated by the f-strings of the source:
identity on strings, `repr`-style rendering otherwise. -/
def pyStr (v : PyVal) : String :=
  match v with
  | .str s => s
  | v => pyRepr v

/-- The test `decision['action'] != 'none'` of the loop, negated: Python
equality of an arbitrary value with the string literal `'none'` (values of
other types are simply unequal to a `str`, no exception). -/
def isNoneAction (a : PyVal) : Bool :=
  match a with
  | .str s => s == "none"
  | _ => false

/-- Keyword-argument lookup inside a `**parameters` mapping. -/
def getParam (params : Params) (k : String) : Option PyVal :=
  match params.find? (fun p => p.fst == k) with
  | some p => some p.snd
  | Option.none => Option.none

/-- A container as reported by the docker client: full id, name, status,
and image tags (`c.id`, `c.name`, `c.status`, `c.image.tags`). -/
structure ContainerInfo where
  id : String
  name : String
  status : String
  image : List String

/-- The docker-client collaborator, as a record of outcome functions:
each field models one docker call the source makes, returning either its
value or the exception it raises. Handler arguments are `PyVal` because
Python type annotations are not enforced at runtime. -/
structure Backend where
  containersList : Except PyErr (List ContainerInfo)
  imagesList : Except PyErr (List (List String))
  networksList : Except PyErr (List String)
  volumesList : Except PyErr (List String)
  runContainer : PyVal → PyVal → Params → Except PyErr ContainerInfo
  getContainer : PyVal → Except PyErr ContainerInfo
  removeContainer : PyVal → Except PyErr Unit
  updateContainer : PyVal → Params → Except PyErr Unit
  containerLogs : PyVal → PyVal → Except PyErr String
  execRun : PyVal → PyVal → Except PyErr (Int × String)

/-- Trace of the docker calls an action handler performs, recorded so that
theorems can state that a code path touches the resource backend not at
all, or a given number of times. -/
inductive BackendCall where
  | run (image name : PyVal)
  | get (name : PyVal)
  | remove (name : PyVal)
  | update (name : PyVal)
  | logs (name : PyVal)
  | exec (name : PyVal)
  | listAll

/-- The mutable state of the `AutonomousAI` instance: `self.memory` (a list
of the dicts appended by `think`) and `self.goals` (the list mutated by
`set_goal`; element type is `PyVal` because the `goal: str` annotation is
unchecked at runtime). -/
structure AIState where
  memory : List PyVal
  goals : List PyVal

/-- The external interactions of one cycle that do not go through the
docker backend: the timestamp `datetime.now().isoformat()`, the outcome of
`llm.ainvoke(prompt)`, and the result of `json.loads` on that response
(`Option.none` models a raised `json.JSONDecodeError`; `json.loads` itself
is the trusted input boundary of the embedding). -/
structure CycleEnv where
  ts : String
  oracle : Except PyErr String
  parsed : Option PyVal

/-- The fallback decision literal returned by `think` when the oracle
response does not decode as JSON. -/
def fallbackDecision : PyVal :=
  .dict [("thought_process", .str "Error in decision making"),
         ("action", .str "none"),
         ("parameters", .dict []),
         ("explanation", .str "There was an error in processing the AI's response.")]

/-- The dict `think` appends to memory on a successful decode:
`{"timestamp": ..., "decision": decision}`. -/
def memEntry (ts : String) (decision : PyVal) : PyVal :=
  .dict [("timestamp", .str ts), ("decision", decision)]

/-- The slice `self.memory[-10:]` surfaced to the oracle as recent-memory
context: the last ten entries, or the whole list when shorter. -/
def recentMemory (st : AIState) : List PyVal :=
  st.memory.drop (st.memory.length - 10)

/-- `"\n".join(...)` over the goal list: requires every element to be a
string, raising `TypeError` otherwise. -/
def strJoin : List PyVal → Except PyErr (List String)
  | [] => .ok []
  | .str s :: rest =>
    match strJoin rest with
    | .ok ss => .ok (s :: ss)
    | .error e => .error e
  | _ :: _ => .error (.typeError "sequence item: expected str instance")

/-- `goals_str = "\n".join(self.goals) if self.goals else "No specific goals set"`. -/
def joinGoals (goals : List PyVal) : Except PyErr String :=
  match goals with
  | [] => .ok "No specific goals set"
  | gs =>
    match strJoin gs with
    | .ok ss => .ok (String.intercalate "\n" ss)
    | .error e => .error e

/-- One container entry of the system-state snapshot:
`{"id": c.id[:12], "name": c.name, "status": c.status, "image": c.image.tags}`. -/
def containerStateDict (c : ContainerInfo) : PyVal :=
  .dict [("id", .str (c.id.take 12)), ("name", .str c.name),
         ("status", .str c.status), ("image", .list (c.image.map PyVal.str))]

/-- `AutonomousAI.get_system_state`: list containers, images, networks and
volumes in that order (any docker failure propagates) and assemble the
snapshot dict. -/
def get_system_state (bk : Backend) : Except PyErr PyVal :=
  match bk.containersList with
  | .error e => .error e
  | .ok cs =>
    match bk.imagesList with
    | .error e => .error e
    | .ok ims =>
      match bk.networksList with
      | .error e => .error e
      | .ok ns =>
        match bk.volumesList with
        | .error e => .error e
        | .ok vs =>
          .ok (.dict [("containers", .list (cs.map containerStateDict)),
                      ("images", .list (ims.map (fun tags => .list (tags.map PyVal.str)))),
                      ("networks", .list (ns.map PyVal.str)),
                      ("volumes", .list (vs.map PyVal.str))])

/-- `AutonomousAI.think`: snapshot the system, build the prompt from the
`recentMemory` slice and the joined goals, invoke the oracle, then
`json.loads` the response. On success the decision is appended to memory
(inside the `try`) and returned; on `JSONDecodeError` the fallback
decision is returned with no memory append (the `except` branch only
logs). Any exception from the snapshot, the goal join or the oracle
propagates out of `think`. -/
def think (bk : Backend) (env : CycleEnv) (st : AIState) :
    AIState × Except PyErr PyVal :=
  match get_system_state bk with
  | .error e => (st, .error e)
  | .ok _systemState =>
    let _memoryContext := recentMemory st
    match joinGoals st.goals with
    | .error e => (st, .error e)
    | .ok _goalsStr =>
      match env.oracle with
      | .error e => (st, .error e)
      | .ok _response =>
        match env.parsed with
        | some decision =>
          ({ st with memory := st.memory ++ [memEntry env.ts decision] }, .ok decision)
        | Option.none => (st, .ok fallbackDecision)

/-- `AutonomousAI.create_container`: `containers.run(image, name=name,
detach=True, **kwargs)`, then the success message built from the created
container's name and truncated id. -/
def create_container (bk : Backend) (name image : PyVal) (kwargs : Params) :
    List BackendCall × Except PyErr PyVal :=
  match bk.runContainer image name kwargs with
  | .error e => ([.run image name], .error e)
  | .ok c =>
    ([.run image name],
     .ok (.dict [("message", .str ("Container created: " ++ c.name ++ " (" ++ c.id.take 12 ++ ")"))]))

/-- `AutonomousAI.delete_container`: `containers.get(name)` then
`container.remove(force=True)`, then the success message. -/
def delete_container (bk : Backend) (name : PyVal) :
    List BackendCall × Except PyErr PyVal :=
  match bk.getContainer name with
  | .error e => ([.get name], .error e)
  | .ok _ =>
    match bk.removeContainer name with
    | .error e => ([.get name, .remove name], .error e)
    | .ok _ =>
      ([.get name, .remove name],
       .ok (.dict [("message", .str ("Container deleted: " ++ pyStr name))]))

/-- `AutonomousAI.modify_container`: `containers.get(name)` then
`container.update(**kwargs)`, then the success message. -/
def modify_container (bk : Backend) (name : PyVal) (kwargs : Params) :
    List BackendCall × Except PyErr PyVal :=
  match bk.getContainer name with
  | .error e => ([.get name], .error e)
  | .ok _ =>
    match bk.updateContainer name kwargs with
    | .error e => ([.get name, .update name], .error e)
    | .ok _ =>
      ([.get name, .update name],
       .ok (.dict [("message", .str ("Container modified: " ++ pyStr name))]))

/-- `AutonomousAI.set_goal`: append the goal to `self.goals` and return the
success message. In the source this is the body of a plain `def` (the only
handler that is not `async def`). -/
def set_goal (st : AIState) (goal : PyVal) : AIState × PyVal :=
  ({ st with goals := st.goals ++ [goal] },
   .dict [("message", .str ("New goal set: " ++ pyStr goal))])

/-- `AutonomousAI.list_containers`: `containers.list(all=True)` rendered as
a list of `{id, name, status}` dicts. -/
def list_containers (bk : Backend) : List BackendCall × Except PyErr PyVal :=
  match bk.containersList with
  | .error e => ([.listAll], .error e)
  | .ok cs =>
    ([.listAll],
     .ok (.dict [("containers",
       .list (cs.map (fun c =>
         .dict [("id", .str (c.id.take 12)), ("name", .str c.name), ("status", .str c.status)])))]))

/-- `AutonomousAI.get_container_logs`: `containers.get(name)` then
`container.logs(tail=lines).decode('utf-8')` (decoding failures fold into
the backend outcome). -/
def get_container_logs (bk : Backend) (name lines : PyVal) :
    List BackendCall × Except PyErr PyVal :=
  match bk.getContainer name with
  | .error e => ([.get name], .error e)
  | .ok _ =>
    match bk.containerLogs name lines with
    | .error e => ([.get name, .logs name], .error e)
    | .ok s => ([.get name, .logs name], .ok (.dict [("logs", .str s)]))

/-- `AutonomousAI.execute_in_container`: `containers.get(name)` then
`container.exec_run(command)`, returning exit code and decoded output. -/
def execute_in_container (bk : Backend) (name command : PyVal) :
    List BackendCall × Except PyErr PyVal :=
  match bk.getContainer name with
  | .error e => ([.get name], .error e)
  | .ok _ =>
    match bk.execRun name command with
    | .error e => ([.get name, .exec name], .error e)
    | .ok r =>
      ([.get name, .exec name],
       .ok (.dict [("exit_code", .int r.fst), ("output", .str r.snd)]))

/-- The keys of `self.action_dispatch`, in source order. -/
def actionTable : List String :=
  ["create_container", "delete_container", "modify_container", "set_goal",
   "list_containers", "get_container_logs", "execute_in_container"]

/-- `AutonomousAI.execute_action`: look the action up in
`self.action_dispatch` and run `await action_function(**parameters)`;
an unknown action returns the error dict instead. Keyword binding follows
Python call semantics: a missing required parameter or an unexpected
keyword (for the handlers without `**kwargs`) raises `TypeError` before
the handler body runs. The `set_goal` branch runs the handler body (the
goal is appended) and then raises `TypeError`, because `set_goal` is a
plain `def` returning a dict, which `await` rejects. The result triple is
(new state, docker calls performed, returned value or raised exception). -/
def execute_action (bk : Backend) (st : AIState) (action : String) (params : Params) :
    AIState × List BackendCall × Except PyErr PyVal :=
  if action == "create_container" then
    match getParam params "name", getParam params "image" with
    | some name, some image =>
      let kwargs := params.filter (fun p => !(p.fst == "name" || p.fst == "image"))
      let r := create_container bk name image kwargs
      (st, r.fst, r.snd)
    | _, _ =>
      (st, [], .error (.typeError "create_container missing required keyword argument"))
  else if action == "delete_container" then
    match getParam params "name" with
    | some name =>
      if params.all (fun p => p.fst == "name") then
        let r := delete_container bk name
        (st, r.fst, r.snd)
      else (st, [], .error (.typeError "delete_container got an unexpected keyword argument"))
    | Option.none =>
      (st, [], .error (.typeError "delete_container missing required keyword argument"))
  else if action == "modify_container" then
    match getParam params "name" with
    | some name =>
      let kwargs := params.filter (fun p => !(p.fst == "name"))
      let r := modify_container bk name kwargs
      (st, r.fst, r.snd)
    | Option.none =>
      (st, [], .error (.typeError "modify_container missing required keyword argument"))
  else if action == "set_goal" then
    match getParam params "goal" with
    | some goal =>
      if params.all (fun p => p.fst == "goal") then
        let r := set_goal st goal
        (r.fst, [], .error (.typeError "object dict cannot be used in await expression"))
      else (st, [], .error (.typeError "set_goal got an unexpected keyword argument"))
    | Option.none =>
      (st, [], .error (.typeError "set_goal missing required keyword argument"))
  else if action == "list_containers" then
    if params.isEmpty then
      let r := list_containers bk
      (st, r.fst, r.snd)
    else (st, [], .error (.typeError "list_containers got an unexpected keyword argument"))
  else if action == "get_container_logs" then
    match getParam params "name" with
    | some name =>
      if params.all (fun p => p.fst == "name" || p.fst == "lines") then
        let lines := (getParam params "lines").getD (.int 50)
        let r := get_container_logs bk name lines
        (st, r.fst, r.snd)
      else (st, [], .error (.typeError "get_container_logs got an unexpected keyword argument"))
    | Option.none =>
      (st, [], .error (.typeError "get_container_logs missing required keyword argument"))
  else if action == "execute_in_container" then
    match getParam params "name", getParam params "command" with
    | some name, some command =>
      if params.all (fun p => p.fst == "name" || p.fst == "command") then
        let r := execute_in_container bk name command
        (st, r.fst, r.snd)
      else (st, [], .error (.typeError "execute_in_container got an unexpected keyword argument"))
    | _, _ =>
      (st, [], .error (.typeError "execute_in_container missing required keyword argument"))
  else
    (st, [], .ok (.dict [("error", .str ("Unknown action: " ++ action))]))

/-- The call `execute_action(decision['action'], decision['parameters'])`
with the action value taken from a decoded JSON decision: a string goes to
the dispatch lookup, an unhashable value (list or dict) makes `dict.get`
raise `TypeError`, and any other hashable value misses the table and
produces the unknown-action dict. -/
def dispatchAction (bk : Backend) (st : AIState) (a : PyVal) (params : Params) :
    AIState × List BackendCall × Except PyErr PyVal :=
  match a with
  | .str s => execute_action bk st s params
  | .list _ => (st, [], .error (.typeError "unhashable type: list"))
  | .dict _ => (st, [], .error (.typeError "unhashable type: dict"))
  | a => (st, [], .ok (.dict [("error", .str ("Unknown action: " ++ pyStr a))]))

/-- The body of one `ai_loop` iteration, before the try/except boundary:
`think`, then — unless `decision['action'] != 'none'` fails the test —
dispatch via `execute_action(decision['action'], decision['parameters'])`.
Returns the state after the iteration, the docker calls performed by the
dispatch, and `.ok Option.none` when no dispatch ran, `.ok (some r)` when
the dispatch returned `r`, or `.error e` when an exception reached the
cycle boundary. -/
def cycleBody (bk : Backend) (env : CycleEnv) (st : AIState) :
    AIState × List BackendCall × Except PyErr (Option PyVal) :=
  match think bk env st with
  | (st1, .error e) => (st1, [], .error e)
  | (st1, .ok decision) =>
    match getItem decision "action" with
    | .error e => (st1, [], .error e)
    | .ok a =>
      if isNoneAction a then (st1, [], .ok Option.none)
      else
        match getItem decision "parameters" with
        | .error e => (st1, [], .error e)
        | .ok pv =>
          match asParams pv with
          | .error e => (st1, [], .error e)
          | .ok params =>
            match dispatchAction bk st1 a params with
            | (st2, calls, .error e) => (st2, calls, .error e)
            | (st2, calls, .ok r) => (st2, calls, .ok (some r))

/-- Whether the background loop task is still scheduled. The source loop
has no exit path; `dead` exists only so durability is a theorem rather
than a typing accident. -/
inductive LoopStatus where
  | running
  | dead
deriving DecidableEq

/-- The loop task's state: the shared `AutonomousAI` state plus
schedulability. -/
structure LoopState where
  ai : AIState
  status : LoopStatus

/-- One iteration of `ai_loop`, with its try/except: whatever the body
does — return normally or raise — the `except Exception` clause catches,
logs, and the task sleeps the fixed 60 seconds and stays scheduled. The
second component is the sleep performed after the iteration. -/
def loopStep (bk : Backend) (env : CycleEnv) (ls : LoopState) : LoopState × Nat :=
  match ls.status with
  | .dead => (ls, 0)
  | .running =>
    match cycleBody bk env ls.ai with
    | (st1, _, .ok _) => (⟨st1, .running⟩, 60)
    | (st1, _, .error _) => (⟨st1, .running⟩, 60)

/-- Finitely many iterations of `ai_loop` under a given sequence of cycle
environments. -/
def runLoop (bk : Backend) (envs : List CycleEnv) (ls : LoopState) : LoopState :=
  envs.foldl (fun s env => (loopStep bk env s).fst) ls

/-- The `/interact` endpoint: `think`, then dispatch the decision
unconditionally (no filtering of the `"none"` sentinel), then build the
response dict from `decision['thought_process']`, `decision['action']`,
`decision['explanation']` and the action result. Any exception raised on
the way propagates out of the endpoint (an HTTP 500). -/
def interact_with_ai (bk : Backend) (env : CycleEnv) (st : AIState) :
    AIState × Except PyErr PyVal :=
  match think bk env st with
  | (st1, .error e) => (st1, .error e)
  | (st1, .ok decision) =>
    match getItem decision "action" with
    | .error e => (st1, .error e)
    | .ok a =>
      match getItem decision "parameters" with
      | .error e => (st1, .error e)
      | .ok pv =>
        match asParams pv with
        | .error e => (st1, .error e)
        | .ok params =>
          match dispatchAction bk st1 a params with
          | (st2, _, .error e) => (st2, .error e)
          | (st2, _, .ok result) =>
            match getItem decision "thought_process" with
            | .error e => (st2, .error e)
            | .ok tp =>
              match getItem decision "explanation" with
              | .error e => (st2, .error e)
              | .ok ex =>
                (st2, .ok (.dict [("ai_thought_process", tp),
                                  ("ai_action", a),
                                  ("ai_explanation", ex),
                                  ("action_result", result)]))

/-- The `/ai_goals` endpoint: a pure read of the shared state. -/
def get_ai_goals (st : AIState) : PyVal :=
  .dict [("goals", .list st.goals)]

/-- The `/ai_memory` endpoint: a pure read of the shared state. -/
def get_ai_memory (st : AIState) : PyVal :=
  .dict [("memory", .list st.memory)]

/-- Fresh `AutonomousAI()` state: empty memory, empty goals. -/
def initialState : AIState := ⟨[], []⟩

/-- A healthy but empty docker backend used as a concrete test fixture. -/
def bkEmpty : Backend where
  containersList := .ok []
  imagesList := .ok []
  networksList := .ok []
  volumesList := .ok []
  runContainer := fun _ _ _ => .error (.dockerError "ImageNotFound")
  getContainer := fun _ => .error (.dockerError "NotFound")
  removeContainer := fun _ => .error (.dockerError "NotFound")
  updateContainer := fun _ _ => .error (.dockerError "NotFound")
  containerLogs := fun _ _ => .error (.dockerError "NotFound")
  execRun := fun _ _ => .error (.dockerError "NotFound")

/-- The spec's scenario fixture: unit `web` running, unit `db` exited. -/
def webInfo : ContainerInfo := ⟨"abc123abc123", "web", "running", ["nginx:latest"]⟩

/-- The exited `db` unit of the spec's scenario fixture. -/
def dbInfo : ContainerInfo := ⟨"def456def456", "db", "exited", ["postgres:16"]⟩

/-- A backend holding `web` and `db`, where fetch and remove succeed for
those two names and fail otherwise. -/
def bkTwo : Backend where
  containersList := .ok [webInfo, dbInfo]
  imagesList := .ok [["nginx:latest"], ["postgres:16"]]
  networksList := .ok ["bridge"]
  volumesList := .ok []
  runContainer := fun _ _ _ => .error (.dockerError "ImageNotFound")
  getContainer := fun n =>
    match n with
    | .str s =>
      if s == "web" then .ok webInfo
      else if s == "db" then .ok dbInfo
      else .error (.dockerError "NotFound")
    | _ => .error (.dockerError "NotFound")
  removeContainer := fun n =>
    match n with
    | .str s =>
      if s == "web" || s == "db" then .ok ()
      else .error (.dockerError "NotFound")
    | _ => .error (.dockerError "NotFound")
  updateContainer := fun _ _ => .error (.dockerError "NotFound")
  containerLogs := fun _ _ => .ok ""
  execRun := fun _ _ => .ok (0, "")

/-- A cycle whose oracle answers text that is not JSON. -/
def envMalformed : CycleEnv := ⟨"2024-01-01T00:00:00", .ok "not json", Option.none⟩

/-- A cycle whose oracle call itself raises. -/
def envOracleDown : CycleEnv :=
  ⟨"2024-01-01T00:01:00", .error (.oracleError "timeout"), Option.none⟩

/-- The spec's scenario decision: delete the exited `db` unit. -/
def deleteDecision : PyVal :=
  .dict [("thought_process", .str "db is exited and can be removed"),
         ("action", .str "delete_container"),
         ("parameters", .dict [("name", .str "db")]),
         ("explanation", .str "Removing the exited db container.")]

/-- A cycle whose oracle returns the delete-db decision as valid JSON. -/
def envDelete : CycleEnv := ⟨"2024-01-01T00:02:00", .ok "json text", some deleteDecision⟩

/-- A well-formed decision whose action is the `"none"` sentinel. -/
def noneDecision : PyVal :=
  .dict [("thought_process", .str "waiting"),
         ("action", .str "none"),
         ("parameters", .dict []),
         ("explanation", .str "Nothing to do.")]

/-- A cycle whose oracle returns the well-formed `"none"` decision. -/
def envNone : CycleEnv := ⟨"2024-01-01T00:03:00", .ok "json text", some noneDecision⟩

/-- Required keyword parameters of each handler, read off the `def`
signatures in the source (parameters with defaults or `**kwargs` are not
required). -/
def requiredParams (a : String) : List String :=
  if a == "create_container" then ["name", "image"]
  else if a == "delete_container" then ["name"]
  else if a == "modify_container" then ["name"]
  else if a == "set_goal" then ["goal"]
  else if a == "list_containers" then []
  else if a == "get_container_logs" then ["name"]
  else if a == "execute_in_container" then ["name", "command"]
  else []

lemma execute_action_unknown (bk : Backend) (st : AIState) (params : Params)
    (a : String) (h : a ∉ actionTable) :
    execute_action bk st a params =
      (st, [], .ok (.dict [("error", .str ("Unknown action: " ++ a))])) := by
  simp only [actionTable, List.mem_cons, List.not_mem_nil, or_false, not_or] at h
  obtain ⟨h1, h2, h3, h4, h5, h6, h7⟩ := h
  simp [execute_action, h1, h2, h3, h4, h5, h6, h7]

lemma execute_action_memory (bk : Backend) (st : AIState) (a : String) (params : Params) :
    (execute_action bk st a params).fst.memory = st.memory := by
  unfold execute_action
  repeat' split
  all_goals simp [set_goal]

lemma dispatchAction_memory (bk : Backend) (st : AIState) (a : PyVal) (params : Params) :
    (dispatchAction bk st a params).fst.memory = st.memory := by
  cases a <;> simp [dispatchAction, execute_action_memory]

lemma think_memory (bk : Backend) (env : CycleEnv) (st : AIState) :
    ∃ t, (think bk env st).fst.memory = st.memory ++ t := by
  unfold think
  repeat' split
  all_goals first
    | exact ⟨_, rfl⟩
    | exact ⟨[], by simp⟩

lemma think_ok_none (bk : Backend) (env : CycleEnv) (st : AIState)
    (v : PyVal) (s r : String)
    (hsnap : get_system_state bk = .ok v) (hgoals : joinGoals st.goals = .ok s)
    (horacle : env.oracle = .ok r) (hparsed : env.parsed = Option.none) :
    think bk env st = (st, .ok fallbackDecision) := by
  unfold think
  rw [hsnap, hgoals, horacle, hparsed]

lemma think_ok_some (bk : Backend) (env : CycleEnv) (st : AIState)
    (d v : PyVal) (s r : String)
    (hsnap : get_system_state bk = .ok v) (hgoals : joinGoals st.goals = .ok s)
    (horacle : env.oracle = .ok r) (hparsed : env.parsed = some d) :
    think bk env st =
      ({ st with memory := st.memory ++ [memEntry env.ts d] }, .ok d) := by
  unfold think
  rw [hsnap, hgoals, horacle, hparsed]

lemma cycleBody_memory (bk : Backend) (env : CycleEnv) (st : AIState) :
    ∃ t, (cycleBody bk env st).fst.memory = st.memory ++ t := by
  have ht := think_memory bk env st
  unfold cycleBody
  rcases hth : think bk env st with ⟨st1, r⟩
  rw [hth] at ht
  simp only at ht
  rcases r with e | d
  · exact ht
  · simp only
    rcases ha : getItem d "action" with e | a
    · exact ht
    · simp only
      by_cases hn : isNoneAction a = true
      · simp only [hn, if_pos]
        exact ht
      · simp only [hn, if_neg, Bool.false_eq_true, not_false_eq_true]
        rcases hp : getItem d "parameters" with e | pv
        · exact ht
        · simp only
          rcases hq : asParams pv with e | params
          · exact ht
          · simp only
            have hd := dispatchAction_memory bk st1 a params
            rcases hdisp : dispatchAction bk st1 a params with ⟨st2, calls, rr⟩
            rw [hdisp] at hd
            simp only at hd
            obtain ⟨t, ht⟩ := ht
            rcases rr with e | rv
            · exact ⟨t, by rw [hd, ht]⟩
            · exact ⟨t, by rw [hd, ht]⟩

lemma interact_memory (bk : Backend) (env : CycleEnv) (st : AIState) :
    ∃ t, (interact_with_ai bk env st).fst.memory = st.memory ++ t := by
  have ht := think_memory bk env st
  unfold interact_with_ai
  rcases hth : think bk env st with ⟨st1, r⟩
  rw [hth] at ht
  simp only at ht
  rcases r with e | d
  · exact ht
  · simp only
    rcases ha : getItem d "action" with e | a
    · exact ht
    · simp only
      rcases hp : getItem d "parameters" with e | pv
      · exact ht
      · simp only
        rcases hq : asParams pv with e | params
        · exact ht
        · simp only
          have hd := dispatchAction_memory bk st1 a params
          rcases hdisp : dispatchAction bk st1 a params with ⟨st2, calls, rr⟩
          rw [hdisp] at hd
          simp only at hd
          obtain ⟨t, ht⟩ := ht
          rcases rr with e | rv
          · exact ⟨t, by rw [hd, ht]⟩
          · simp only
            rcases getItem d "thought_process" with e | tp
            · exact ⟨t, by rw [hd, ht]⟩
            · simp only
              rcases getItem d "explanation" with e | ex
              · exact ⟨t, by rw [hd, ht]⟩
              · exact ⟨t, by rw [hd, ht]⟩

lemma loopStep_status (bk : Backend) (env : CycleEnv) (ls : LoopState) :
    ((loopStep bk env ls).fst).status = ls.status := by
  unfold loopStep
  rcases ls with ⟨ai, status⟩
  cases status
  · rcases hc : cycleBody bk env ai with ⟨st1, calls, r⟩
    cases r <;> rfl
  · rfl

lemma runLoop_status (bk : Backend) (envs : List CycleEnv) (ls : LoopState) :
    (runLoop bk envs ls).status = ls.status := by
  induction envs generalizing ls with
  | nil => rfl
  | cons e rest ih =>
    unfold runLoop
    simp only [List.foldl_cons]
    have h1 := loopStep_status bk e ls
    have h2 := ih ((loopStep bk e ls).fst)
    unfold runLoop at h2
    rw [h2, h1]

lemma loopStep_memory (bk : Backend) (env : CycleEnv) (ls : LoopState) :
    ∃ t, ((loopStep bk env ls).fst).ai.memory = ls.ai.memory ++ t := by
  unfold loopStep
  rcases ls with ⟨ai, status⟩
  cases status
  · have ht := cycleBody_memory bk env ai
    rcases hc : cycleBody bk env ai with ⟨st1, calls, r⟩
    rw [hc] at ht
    simp only at ht
    cases r <;> exact ht
  · exact ⟨[], by simp⟩

lemma runLoop_memory (bk : Backend) (envs : List CycleEnv) (ls : LoopState) :
    ∃ t, (runLoop bk envs ls).ai.memory = ls.ai.memory ++ t := by
  induction envs generalizing ls with
  | nil => exact ⟨[], by simp [runLoop]⟩
  | cons e rest ih =>
    obtain ⟨t1, h1⟩ := loopStep_memory bk e ls
    obtain ⟨t2, h2⟩ := ih ((loopStep bk e ls).fst)
    refine ⟨t1 ++ t2, ?_⟩
    unfold runLoop
    simp only [List.foldl_cons]
    unfold runLoop at h2
    rw [h2, h1, List.append_assoc]

/-- C1: loop durability. Every iteration of `ai_loop` — whether its body
returns normally or raises anywhere in think/dispatch — leaves the
background task scheduled, so after any finite sequence of cycles
(including arbitrarily many consecutive failing ones, since `envs` and
`bk` range over all behaviours, failing included) the loop is still
running, and every iteration from a running state is followed by the fixed
60-second sleep on both the success and the except path. -/
theorem loop_durability (bk : Backend) (envs : List CycleEnv) (st : AIState)
    (env : CycleEnv) :
    (runLoop bk envs ⟨st, .running⟩).status = .running ∧
    (loopStep bk env ⟨st, .running⟩).snd = 60 := by
  refine ⟨runLoop_status bk envs ⟨st, .running⟩, ?_⟩
  unfold loopStep
  rcases hc : cycleBody bk env st with ⟨st1, calls, r⟩
  cases r <;> rfl

/-- C2 counterexample: on a non-JSON oracle response (`envMalformed`, from
the fresh state), `think` does return the fallback decision, but memory
does not grow by one entry — `self.memory.append` sits inside the `try`
and is skipped when `json.loads` raises, so memory stays empty. -/
theorem malformed_memory_growth_counterexample :
    (think bkEmpty envMalformed initialState).snd = Except.ok fallbackDecision ∧
    ¬ (think bkEmpty envMalformed initialState).fst.memory.length =
        initialState.memory.length + 1 :=
  ⟨rfl, by decide⟩

/-- C2 amended: for every oracle response that does not decode as JSON
(after a successful snapshot, goal join and oracle call), `think` returns
the fallback decision without raising, the state is unchanged — in
particular no memory entry is appended — and the loop cycle performs no
resource-backend action call (the dispatch is skipped because the fallback
action is the `"none"` sentinel). -/
theorem malformed_oracle_fallback (bk : Backend) (env : CycleEnv) (st : AIState)
    (hsnap : ∃ v, get_system_state bk = Except.ok v)
    (hgoals : ∃ s, joinGoals st.goals = Except.ok s)
    (horacle : ∃ r, env.oracle = Except.ok r)
    (hparsed : env.parsed = Option.none) :
    think bk env st = (st, Except.ok fallbackDecision) ∧
    cycleBody bk env st = (st, [], Except.ok Option.none) := by
  obtain ⟨v, hv⟩ := hsnap
  obtain ⟨s, hs⟩ := hgoals
  obtain ⟨r, hr⟩ := horacle
  have hthink := think_ok_none bk env st v s r hv hs hr hparsed
  refine ⟨hthink, ?_⟩
  unfold cycleBody
  rw [hthink]
  rfl

/-- C2 witness: the amended claim at the concrete malformed-oracle cycle
on the fresh state over the empty backend. -/
theorem malformed_oracle_fallback_witness :
    think bkEmpty envMalformed initialState = (initialState, Except.ok fallbackDecision) ∧
    cycleBody bkEmpty envMalformed initialState =
      (initialState, [], Except.ok Option.none) :=
  malformed_oracle_fallback bkEmpty envMalformed initialState
    ⟨_, rfl⟩ ⟨_, rfl⟩ ⟨_, rfl⟩ rfl

/-- C3 counterexample: in the spec's own scenario (backend with `web` and
`db`, oracle decides `delete_container` on `db`), the cycle's only memory
entry is exactly `{timestamp, decision}`; it has no `result` field at all
(looking one up raises `KeyError`), so the dispatched action's result
message is not in the memory entry. -/
theorem memory_entry_without_result_counterexample :
    (cycleBody bkTwo envDelete initialState).fst.memory =
      [memEntry "2024-01-01T00:02:00" deleteDecision] ∧
    getItem (memEntry "2024-01-01T00:02:00" deleteDecision) "result" =
      Except.error (PyErr.keyError "result") :=
  ⟨rfl, rfl⟩

/-- C3 amended: the ActionResult of a dispatched action is only returned
and logged, never appended or merged into memory — for every cycle whose
oracle yields a decoded decision, memory after the cycle is exactly the
old memory plus the single `{timestamp, decision}` entry appended by
`think`, whatever the dispatch does; and in the spec's `delete_container`
scenario the dispatch calls backend get and remove on `"db"` once each and
returns the message `Container deleted: db`, which references `"db"` but
lives only in the (logged) dispatch result. -/
theorem action_result_not_merged :
    (∀ (bk : Backend) (env : CycleEnv) (st : AIState) (d : PyVal),
        (∃ v, get_system_state bk = Except.ok v) →
        (∃ s, joinGoals st.goals = Except.ok s) →
        (∃ r, env.oracle = Except.ok r) →
        env.parsed = some d →
        (cycleBody bk env st).fst.memory = st.memory ++ [memEntry env.ts d]) ∧
    cycleBody bkTwo envDelete initialState =
      (⟨[memEntry "2024-01-01T00:02:00" deleteDecision], []⟩,
       [BackendCall.get (.str "db"), BackendCall.remove (.str "db")],
       Except.ok (some (.dict [("message", .str "Container deleted: db")]))) := by
  constructor
  · intro bk env st d hsnap hgoals horacle hp
    obtain ⟨v, hv⟩ := hsnap
    obtain ⟨s, hs⟩ := hgoals
    obtain ⟨r, hr⟩ := horacle
    have hthink := think_ok_some bk env st d v s r hv hs hr hp
    unfold cycleBody
    rw [hthink]
    rcases ha : getItem d "action" with e | a
    · simp only [ha]
    · simp only [ha]
      by_cases hn : isNoneAction a = true
      · rw [if_pos hn]
      · rw [if_neg hn]
        rcases hpp : getItem d "parameters" with e | pv
        · simp only [hpp]
        · simp only [hpp]
          rcases hq : asParams pv with e | params
          · simp only [hq]
          · simp only [hq]
            have hd := dispatchAction_memory bk
              { st with memory := st.memory ++ [memEntry env.ts d] } a params
            rcases hdisp : dispatchAction bk
                { st with memory := st.memory ++ [memEntry env.ts d] } a params
              with ⟨st2, calls, rr⟩
            rw [hdisp] at hd
            simp only at hd
            rcases rr with e | rv
            · exact hd
            · exact hd
  · rfl

/-- C3 witness: the amended universal part at the concrete
`delete_container` scenario. -/
theorem action_result_not_merged_witness :
    (cycleBody bkTwo envDelete initialState).fst.memory =
      initialState.memory ++ [memEntry "2024-01-01T00:02:00" deleteDecision] :=
  action_result_not_merged.1 bkTwo envDelete initialState deleteDecision
    ⟨_, rfl⟩ ⟨_, rfl⟩ ⟨_, rfl⟩ rfl

/-- C4 counterexample: calling the in-table action `delete_container` with
an empty parameter mapping does not return an error ActionResult — the
missing required `name` makes the handler call raise `TypeError`, and that
exception propagates out of `execute_action` (past the dispatcher
boundary). -/
theorem missing_parameter_counterexample :
    execute_action bkEmpty initialState "delete_container" [] =
      (initialState, [],
       Except.error (PyErr.typeError "delete_container missing required keyword argument")) :=
  rfl

/-- C4 amended: for every action in the dispatch table, a parameter
mapping missing one of the handler's required named parameters makes the
handler call raise `TypeError` out of `execute_action` — no `ParameterError`
ActionResult is produced — with no state change and no backend call; the
exception is caught only at the control-loop cycle boundary (the loop task
stays in its status), so it still never becomes a process-level failure. -/
theorem missing_required_parameter_raises (bk : Backend) (st : AIState) (a : String)
    (params : Params) (r : String) (env : CycleEnv) (ls : LoopState)
    (hr : r ∈ requiredParams a) (hm : getParam params r = Option.none) :
    (∃ msg, execute_action bk st a params =
        (st, [], Except.error (PyErr.typeError msg))) ∧
    ((loopStep bk env ls).fst).status = ls.status := by
  refine ⟨?_, loopStep_status bk env ls⟩
  by_cases h1 : a = "create_container"
  · subst h1
    simp [requiredParams] at hr
    rcases hr with hr | hr
    · subst hr
      refine ⟨"create_container missing required keyword argument", ?_⟩
      cases hi : getParam params "image" <;> simp [execute_action, hm, hi]
    · subst hr
      refine ⟨"create_container missing required keyword argument", ?_⟩
      cases hn : getParam params "name" <;> simp [execute_action, hm, hn]
  · by_cases h2 : a = "delete_container"
    · subst h2
      simp [requiredParams] at hr
      subst hr
      exact ⟨"delete_container missing required keyword argument",
        by simp [execute_action, hm]⟩
    · by_cases h3 : a = "modify_container"
      · subst h3
        simp [requiredParams] at hr
        subst hr
        exact ⟨"modify_container missing required keyword argument",
          by simp [execute_action, hm]⟩
      · by_cases h4 : a = "set_goal"
        · subst h4
          simp [requiredParams] at hr
          subst hr
          exact ⟨"set_goal missing required keyword argument",
            by simp [execute_action, hm]⟩
        · by_cases h5 : a = "list_containers"
          · subst h5
            simp [requiredParams] at hr
          · by_cases h6 : a = "get_container_logs"
            · subst h6
              simp [requiredParams] at hr
              subst hr
              exact ⟨"get_container_logs missing required keyword argument",
                by simp [execute_action, hm]⟩
            · by_cases h7 : a = "execute_in_container"
              · subst h7
                simp [requiredParams] at hr
                rcases hr with hr | hr
                · subst hr
                  refine ⟨"execute_in_container missing required keyword argument", ?_⟩
                  cases hc : getParam params "command" <;>
                    simp [execute_action, hm, hc]
                · subst hr
                  refine ⟨"execute_in_container missing required keyword argument", ?_⟩
                  cases hn : getParam params "name" <;>
                    simp [execute_action, hm, hn]
              · exfalso
                simp [requiredParams, h1, h2, h3, h4, h5, h6, h7] at hr

/-- C4 witness: the amended claim at the concrete input of the
counterexample — `delete_container` with the empty mapping, required
parameter `name`, over the empty backend and a running loop task. -/
theorem missing_required_parameter_raises_witness :
    (∃ msg, execute_action bkEmpty initialState "delete_container" [] =
        (initialState, [], Except.error (PyErr.typeError msg))) ∧
    ((loopStep bkEmpty envMalformed ⟨initialState, .running⟩).fst).status =
      LoopStatus.running :=
  missing_required_parameter_raises bkEmpty initialState "delete_container" []
    "name" envMalformed ⟨initialState, .running⟩ (by decide) rfl

/-- C5: dispatching any action string outside the recognized table, with
any parameter mapping, returns exactly the `Unknown action` error dict —
no state change, no backend call, no exception past the dispatcher. -/
theorem unknown_action_is_data (bk : Backend) (st : AIState) (params : Params)
    (action : String) (h : action ∉ actionTable) :
    execute_action bk st action params =
      (st, [], Except.ok (.dict [("error", .str ("Unknown action: " ++ action))])) :=
  execute_action_unknown bk st params action h

/-- C5 witness: the unrecognized action `frobnicate`. -/
theorem unknown_action_is_data_witness :
    "frobnicate" ∉ actionTable ∧
    execute_action bkEmpty initialState "frobnicate" [] =
      (initialState, [],
       Except.ok (.dict [("error", .str "Unknown action: frobnicate")])) :=
  ⟨by decide,
   unknown_action_is_data bkEmpty initialState [] "frobnicate" (by decide)⟩

/-- C6: the recent-memory context surfaced to the oracle — the model of
`self.memory[-10:]` — has at most 10 entries, never more than the total
number of entries appended so far (fewer when history is shorter, with no
padding and no error: it is total), and is a suffix of the full memory
sequence, hence in append order. -/
theorem recent_memory_window (st : AIState) :
    (recentMemory st).length ≤ 10 ∧
    (recentMemory st).length ≤ st.memory.length ∧
    recentMemory st <:+ st.memory := by
  refine ⟨?_, ?_, List.drop_suffix _ _⟩
  · simp only [recentMemory, List.length_drop]
    omega
  · simp only [recentMemory, List.length_drop]
    omega

/-- C7: evaluation of the code at the failing input. Dispatching
`set_goal` with `goal = "reduce idle containers"` does append the goal as
the last element (the handler body runs and its own return value is the
expected message), but `execute_action` then raises
`TypeError` — `set_goal` is the one handler defined with a plain `def`, so
the `await` is applied to the returned dict — and the dispatch never
returns the `New goal set` ActionResult. -/
theorem set_goal_await_type_error :
    execute_action bkEmpty initialState "set_goal"
        [("goal", .str "reduce idle containers")] =
      (⟨[], [.str "reduce idle containers"]⟩, [],
       Except.error (.typeError "object dict cannot be used in await expression")) ∧
    set_goal initialState (.str "reduce idle containers") =
      (⟨[], [.str "reduce idle containers"]⟩,
       .dict [("message", .str "New goal set: reduce idle containers")]) :=
  ⟨rfl, rfl⟩

/-- C8: the `"none"` sentinel is absent from the dispatch table; passing it
to `execute_action` anyway invokes no handler and mutates nothing (the
state is returned unchanged, no backend call happens, the unknown-action
dict comes back); and the background loop filters `action == "none"`
before dispatch, so a cycle whose decoded decision carries action `"none"`
performs no backend action call and leaves the goal list untouched. -/
theorem none_never_dispatched :
    "none" ∉ actionTable ∧
    (∀ (bk : Backend) (st : AIState) (params : Params),
        execute_action bk st "none" params =
          (st, [], Except.ok (.dict [("error", .str "Unknown action: none")]))) ∧
    (∀ (bk : Backend) (env : CycleEnv) (st : AIState) (d : PyVal),
        env.parsed = some d → getItem d "action" = Except.ok (.str "none") →
        (cycleBody bk env st).snd.fst = [] ∧
        (cycleBody bk env st).fst.goals = st.goals) := by
  refine ⟨by decide, ?_, ?_⟩
  · intro bk st params
    exact execute_action_unknown bk st params "none" (by decide)
  · intro bk env st d hp ha
    rcases hsnap : get_system_state bk with e | v
    · have hthink : think bk env st = (st, .error e) := by
        unfold think
        rw [hsnap]
      unfold cycleBody
      rw [hthink]
      exact ⟨rfl, rfl⟩
    · rcases hgoals : joinGoals st.goals with e | s
      · have hthink : think bk env st = (st, .error e) := by
          unfold think
          rw [hsnap, hgoals]
        unfold cycleBody
        rw [hthink]
        exact ⟨rfl, rfl⟩
      · rcases horacle : env.oracle with e | r
        · have hthink : think bk env st = (st, .error e) := by
            unfold think
            rw [hsnap, hgoals, horacle]
          unfold cycleBody
          rw [hthink]
          exact ⟨rfl, rfl⟩
        · have hthink := think_ok_some bk env st d v s r hsnap hgoals horacle hp
          unfold cycleBody
          rw [hthink]
          simp only [ha]
          exact ⟨rfl, rfl⟩

/-- C8 witness: the claim's components at the concrete well-formed
`"none"` decision over the empty backend and fresh state. -/
theorem none_never_dispatched_witness :
    execute_action bkEmpty initialState "none" [] =
      (initialState, [], Except.ok (.dict [("error", .str "Unknown action: none")])) ∧
    (cycleBody bkEmpty envNone initialState).snd.fst = [] ∧
    (cycleBody bkEmpty envNone initialState).fst.goals = initialState.goals :=
  ⟨none_never_dispatched.2.1 bkEmpty initialState [],
   none_never_dispatched.2.2 bkEmpty envNone initialState noneDecision rfl rfl⟩

/-- C9: memory is append-only. `think` only ever extends memory on the
right; `execute_action` and every handler it dispatches (including the
`set_goal` mutation of the goal list) leave memory exactly as it was, as
does the raw dispatch on an arbitrary decoded action value; a whole loop
cycle, the `/interact` endpoint, and any finite run of the background loop
extend memory on the right, never removing, reordering or modifying
existing entries. The read-only endpoints `get_ai_goals` and
`get_ai_memory` take no state and return none, so they cannot mutate. -/
theorem memory_append_only :
    (∀ (bk : Backend) (env : CycleEnv) (st : AIState),
        ∃ t, (think bk env st).fst.memory = st.memory ++ t) ∧
    (∀ (bk : Backend) (st : AIState) (a : String) (params : Params),
        (execute_action bk st a params).fst.memory = st.memory) ∧
    (∀ (bk : Backend) (st : AIState) (a : PyVal) (params : Params),
        (dispatchAction bk st a params).fst.memory = st.memory) ∧
    (∀ (bk : Backend) (env : CycleEnv) (st : AIState),
        ∃ t, (cycleBody bk env st).fst.memory = st.memory ++ t) ∧
    (∀ (bk : Backend) (env : CycleEnv) (st : AIState),
        ∃ t, (interact_with_ai bk env st).fst.memory = st.memory ++ t) ∧
    (∀ (bk : Backend) (envs : List CycleEnv) (ls : LoopState),
        ∃ t, (runLoop bk envs ls).ai.memory = ls.ai.memory ++ t) :=
  ⟨think_memory, execute_action_memory, dispatchAction_memory, cycleBody_memory,
   interact_memory, runLoop_memory⟩

/-- C10: the `/interact` endpoint dispatches the decision unconditionally.
Whenever `think` returns a decision whose `action` is the `"none"`
sentinel (with the other Decision fields present, as the fallback decision
always has them — for example after a malformed oracle response), the
response is built with `action_result` equal to the
`Unknown action: none` error dict, because `"none"` is not a key of the
dispatch table and no filtering happens before `execute_action`. -/
theorem interact_dispatches_none_sentinel (bk : Backend) (env : CycleEnv)
    (st st1 : AIState) (d tp ex : PyVal) (ps : Params)
    (hthink : think bk env st = (st1, Except.ok d))
    (ha : getItem d "action" = Except.ok (.str "none"))
    (hp : getItem d "parameters" = Except.ok (.dict ps))
    (htp : getItem d "thought_process" = Except.ok tp)
    (hex : getItem d "explanation" = Except.ok ex) :
    (interact_with_ai bk env st).snd =
      Except.ok (.dict [("ai_thought_process", tp),
                        ("ai_action", .str "none"),
                        ("ai_explanation", ex),
                        ("action_result",
                         .dict [("error", .str "Unknown action: none")])]) := by
  unfold interact_with_ai
  rw [hthink]
  simp only [ha, hp]
  have hdisp := execute_action_unknown bk st1 ps "none" (by decide)
  simp only [asParams, dispatchAction, hdisp, htp, hex]
  rfl

/-- C10 witness: the fallback decision after a malformed oracle response
over the empty backend — the response carries
`action_result = {"error": "Unknown action: none"}`. -/
theorem interact_dispatches_none_sentinel_witness :
    (interact_with_ai bkEmpty envMalformed initialState).snd =
      Except.ok (.dict [("ai_thought_process", .str "Error in decision making"),
                        ("ai_action", .str "none"),
                        ("ai_explanation",
                         .str "There was an error in processing the AI's response."),
                        ("action_result",
                         .dict [("error", .str "Unknown action: none")])]) :=
  interact_dispatches_none_sentinel bkEmpty envMalformed initialState initialState
    fallbackDecision (.str "Error in decision making")
    (.str "There was an error in processing the AI's response.") []
    rfl rfl rfl rfl rfl

end PodAI
